import Mathlib

/-!
Verification of the Medical-Organiser document pipeline (`AIProcessor`,
backend service) against its specification.

The embedding models the JavaScript/TypeScript semantics the pipeline relies
on: a `JVal` type for JSON/JS values (with `jsUndefined` for JavaScript `undefined`),
JS truthiness, the `||` operator, property lookup with the semantics of
`med?.field`, and `typeof v === 'object'` (which is true for `null`, arrays
and plain objects alike).
-/

namespace MedOrganiser

/-- JavaScript values as they occur in this pipeline: JSON values plus
`undefined` (the result of a missed property lookup). Numbers are modelled
as integers; the pipeline never computes with them. -/
inductive JVal where
  | jsUndefined : JVal
  | null : JVal
  | bool : Bool → JVal
  | num : Int → JVal
  | str : String → JVal
  | arr : List JVal → JVal
  | obj : List (String × JVal) → JVal
deriving Inhabited

/-- JavaScript truthiness: `undefined`, `null`, `false`, `0` and `""` are
falsy; every array and object (empty or not) is truthy. -/
def truthy : JVal → Bool
  | .jsUndefined => false
  | .null => false
  | .bool b => b
  | .num n => n != 0
  | .str s => s != ""
  | .arr _ => true
  | .obj _ => true

/-- The JavaScript `a || b` operator: `a` when truthy, otherwise `b`. -/
def jOr (a b : JVal) : JVal := if truthy a then a else b

/-- First binding of `key` in an object's field list; `undefined` if absent. -/
def lookupKey : List (String × JVal) → String → JVal
  | [], _ => .jsUndefined
  | (k, v) :: rest, key => if k = key then v else lookupKey rest key

/-- Property access `v?.key` (and `v.key` for the object values on which the
code uses it): lookup on objects, `undefined` on every other value — the
canonical keys of this pipeline exist on no primitive prototype. -/
def getKey (v : JVal) (key : String) : JVal :=
  match v with
  | .obj fields => lookupKey fields key
  | _ => .jsUndefined

/-- `typeof v === 'object'` — true for `null`, arrays and objects. -/
def isObjectType : JVal → Bool
  | .null => true
  | .arr _ => true
  | .obj _ => true
  | _ => false

/-- The first prescription filter, `med && typeof med === 'object'`
(aiProcessor line 158). -/
def isObjLike (v : JVal) : Bool := truthy v && isObjectType v

/-- The prescription map step (aiProcessor lines 159–164): reduce an element
to exactly the four canonical Medication fields, each `med?.field || ''`. -/
def normMed (med : JVal) : JVal :=
  .obj [ ("medicineName", jOr (getKey med "medicineName") (.str ""))
       , ("dosage", jOr (getKey med "dosage") (.str ""))
       , ("duration", jOr (getKey med "duration") (.str ""))
       , ("tablets", jOr (getKey med "tablets") (.str "")) ]

/-- The second prescription filter (aiProcessor lines 165–167):
`med.medicineName || med.dosage || med.duration || med.tablets`. -/
def keepMed (med : JVal) : Bool :=
  truthy (getKey med "medicineName") || truthy (getKey med "dosage") ||
    truthy (getKey med "duration") || truthy (getKey med "tablets")

/-- Prescription normalization (aiProcessor lines 153–168): a non-array
becomes the empty list; an array is filtered to object-like elements, each
reduced to the four canonical fields, and elements with all four fields
falsy are dropped. -/
def normPrescription (p : JVal) : List JVal :=
  match p with
  | .arr xs => (List.map normMed (List.filter isObjLike xs)).filter keepMed
  | _ => []

/-- Whether a `JVal` is array-shaped (`Array.isArray`). -/
def JVal.isArr : JVal → Bool
  | .arr _ => true
  | _ => false

/-! ### JSON parsing (`JSON.parse`, aiProcessor line 150)

A recursive-descent parser for the JSON fragment this pipeline exchanges
with the model: null, booleans, integer numbers (fractions and exponents do
not occur in the pipeline's documents), strings with the single-character
escapes, arrays and objects. Recursion is bounded by explicit fuel; the
entry point supplies fuel ample for every input. -/

def quoteChar : Char := Char.ofNat 34

def backslashChar : Char := Char.ofNat 92

def braceOpen : Char := Char.ofNat 123

def braceClose : Char := Char.ofNat 125

/-- Drop leading JSON whitespace. -/
def skipWs : List Char → List Char
  | [] => []
  | c :: rest =>
    if c == ' ' || c == '\t' || c == '\n' || c == '\r' then skipWs rest
    else c :: rest

/-- Single-character string escapes. -/
def unescapeChar (c : Char) : Option Char :=
  if c == quoteChar || c == backslashChar || c == '/' then some c
  else if c == 'n' then some '\n'
  else if c == 't' then some '\t'
  else if c == 'r' then some '\r'
  else if c == 'b' then some (Char.ofNat 8)
  else if c == 'f' then some (Char.ofNat 12)
  else none

/-- Parse the body of a string literal, after the opening quote. -/
def parseStrBody (fuel : Nat) (cs : List Char) : Option (List Char × List Char) :=
  match fuel, cs with
  | 0, _ => none
  | _, [] => none
  | f + 1, c :: rest =>
    if c == quoteChar then some ([], rest)
    else if c == backslashChar then
      match rest with
      | [] => none
      | e :: rest2 =>
        match unescapeChar e, parseStrBody f rest2 with
        | some ch, some (s, r) => some (ch :: s, r)
        | _, _ => none
    else
      match parseStrBody f rest with
      | some (s, r) => some (c :: s, r)
      | none => none

/-- Split leading decimal digits from the rest. -/
def takeDigits : List Char → List Char × List Char
  | [] => ([], [])
  | c :: rest =>
    if c.isDigit then
      let (d, r) := takeDigits rest
      (c :: d, r)
    else ([], c :: rest)

def digitsToNat (ds : List Char) : Nat :=
  ds.foldl (fun acc c => acc * 10 + (c.toNat - 48)) 0

/-- Parse an integer JSON number. -/
def parseNum (cs : List Char) : Option (JVal × List Char) :=
  let signed := match cs with
    | c :: rest => if c == '-' then (true, rest) else (false, cs)
    | [] => (false, ([] : List Char))
  match takeDigits signed.2 with
  | ([], _) => none
  | (ds, rest) =>
    let n : Int := Int.ofNat (digitsToNat ds)
    some (.num (if signed.1 then -n else n), rest)

mutual

/-- Parse one JSON value, returning it with the unconsumed remainder. -/
def parseVal (fuel : Nat) (cs : List Char) : Option (JVal × List Char) :=
  match fuel with
  | 0 => none
  | f + 1 =>
    match skipWs cs with
    | [] => none
    | c :: rest =>
      if c == quoteChar then
        match parseStrBody (rest.length + 1) rest with
        | some (s, r) => some (.str (String.mk s), r)
        | none => none
      else if c == braceOpen then
        match skipWs rest with
        | c2 :: r2 => if c2 == braceClose then some (.obj [], r2) else parseObjItems f rest []
        | [] => none
      else if c == '[' then
        match skipWs rest with
        | c2 :: r2 => if c2 == ']' then some (.arr [], r2) else parseArrItems f rest []
        | [] => none
      else
        match c :: rest with
        | 'n' :: 'u' :: 'l' :: 'l' :: r => some (.null, r)
        | 't' :: 'r' :: 'u' :: 'e' :: r => some (.bool true, r)
        | 'f' :: 'a' :: 'l' :: 's' :: 'e' :: r => some (.bool false, r)
        | cs2 => parseNum cs2

/-- Parse the comma-separated elements of a non-empty array. -/
def parseArrItems (fuel : Nat) (cs : List Char) (acc : List JVal) : Option (JVal × List Char) :=
  match fuel with
  | 0 => none
  | f + 1 =>
    match parseVal f cs with
    | none => none
    | some (v, r) =>
      match skipWs r with
      | c :: r2 =>
        if c == ',' then parseArrItems f r2 (acc ++ [v])
        else if c == ']' then some (.arr (acc ++ [v]), r2)
        else none
      | [] => none

/-- Parse the comma-separated members of a non-empty object. -/
def parseObjItems (fuel : Nat) (cs : List Char) (acc : List (String × JVal)) :
    Option (JVal × List Char) :=
  match fuel with
  | 0 => none
  | f + 1 =>
    match skipWs cs with
    | c :: rest =>
      if c == quoteChar then
        match parseStrBody (rest.length + 1) rest with
        | some (k, r) =>
          match skipWs r with
          | c2 :: r2 =>
            if c2 == ':' then
              match parseVal f r2 with
              | some (v, r3) =>
                match skipWs r3 with
                | c3 :: r4 =>
                  if c3 == ',' then parseObjItems f r4 (acc ++ [(String.mk k, v)])
                  else if c3 == braceClose then some (.obj (acc ++ [(String.mk k, v)]), r4)
                  else none
                | [] => none
              | none => none
            else none
          | [] => none
        | none => none
      else none
    | [] => none

end

/-- `JSON.parse`: parse a complete JSON document, rejecting trailing junk. -/
def parseJson (s : String) : Option JVal :=
  match parseVal (2 * s.length + 4) s.toList with
  | some (v, rest) => if (skipWs rest).isEmpty then some v else none
  | none => none

/-! ### Response cleaning (aiProcessor line 147)

`result.replace(/```json\n|\n```/g, '').trim()`: a single left-to-right scan
deleting every occurrence of either fence marker, then a trim. -/

def fenceOpen : List Char := "```json\n".toList

def fenceClose : List Char := "\n```".toList

/-- Whether `pat` is an initial segment of `cs`. -/
def matchesAt : List Char → List Char → Bool
  | [], _ => true
  | _ :: _, [] => false
  | p :: ps, c :: cs => p == c && matchesAt ps cs

/-- One left-to-right pass deleting fence markers, as the global regex
replace does. Fuel is at least the length of the input, and every step
consumes at least one character, so the fuel never runs out. -/
def stripFences (fuel : Nat) (cs : List Char) : List Char :=
  match fuel with
  | 0 => cs
  | f + 1 =>
    match cs with
    | [] => []
    | c :: rest =>
      if matchesAt fenceOpen cs then stripFences f (cs.drop 8)
      else if matchesAt fenceClose cs then stripFences f (cs.drop 4)
      else c :: stripFences f rest

/-- JavaScript `String.prototype.trim`: drop whitespace from both ends. -/
def jsTrim (s : String) : String :=
  String.mk (skipWs ((skipWs s.toList.reverse).reverse))

/-- The cleaning step applied to the raw model response. -/
def cleanResponse (result : String) : String :=
  jsTrim (String.mk (stripFences (result.length + 1) result.toList))

/-! ### Structured field extraction (aiProcessor lines 91–196) -/

/-- The errors this slice of the pipeline surfaces. `parseFailed` is the
`Error('Failed to parse AI response')` thrown by the catch at line 190 —
note that this catch wraps the whole parse-and-format block, so a failing
summary call surfaces as this same error. `extractionFailed` covers both
errors thrown by `extractText`. `unsupportedFormat` is the spec's
`UnsupportedFormatError`; no code path produces it. -/
inductive ExtractErr where
  | parseFailed : ExtractErr
  | extractionFailed : ExtractErr
  | unsupportedFormat : ExtractErr
deriving DecidableEq, Repr

/-- The record assembled at aiProcessor lines 171–179. Field values keep
their JavaScript shape (`JVal`); `summary` is `none` while the optional
property is unset. -/
structure MedRecord where
  patientName : JVal
  date : JVal
  doctorName : JVal
  diagnosis : JVal
  prescription : List JVal
  notes : JVal
  recordType : JVal
  summary : Option String

/-- Lines 171–179: every top-level field defaulted with `||`. `date`
defaults to the current date (`new Date().toISOString().split('T')[0]`,
passed in as `currentDate`) and `recordType` to `'prescription'`; the other
string fields default to the empty string. After lines 153–168 the
prescription value is always an array, and an array — even empty — is
truthy, so line 176's `|| []` keeps the normalized list. -/
def formatRecord (p : JVal) (currentDate : String) : MedRecord :=
  { patientName := jOr (getKey p "patientName") (.str "")
  , date := jOr (getKey p "date") (.str currentDate)
  , doctorName := jOr (getKey p "doctorName") (.str "")
  , diagnosis := jOr (getKey p "diagnosis") (.str "")
  , prescription := normPrescription (getKey p "prescription")
  , notes := jOr (getKey p "notes") (.str "")
  , recordType := jOr (getKey p "recordType") (.str "prescription")
  , summary := none }

/-- Line 182's guard: `formattedData.patientName || formattedData.diagnosis
|| (formattedData.prescription || []).length > 0`. -/
def needsSummary (r : MedRecord) : Bool :=
  truthy r.patientName || truthy r.diagnosis || decide (0 < r.prescription.length)

/-- Lines 152–187, from the parsed JSON onward. `summaryOutcome` is the
result of the `generateSummary` completion call (lines 213–230, which
propagates any provider error); it is consulted only when line 182's guard
holds. A parsed value that is neither an object nor an array makes the
property write at line 155 throw a `TypeError` (strict-mode assignment to a
primitive or member access on `null`), which the catch at line 188 converts
to the same parse-failure error. -/
def extractFromParsed (p : JVal) (currentDate : String)
    (summaryOutcome : Except String String) : Except ExtractErr MedRecord :=
  match p with
  | .obj _ | .arr _ =>
    let r := formatRecord p currentDate
    if needsSummary r then
      match summaryOutcome with
      | .ok s => .ok { r with summary := some s }
      | .error _ => .error .parseFailed
    else .ok r
  | _ => .error .parseFailed

/-- `extractStructuredData` (lines 91–196) from the completion response
onward: `content` is `response.choices[0]?.message?.content`; line 142's
`|| '{}'` substitutes `'{}'` when it is absent — or empty, since `''` is
falsy. -/
def extractStructuredData (content : Option String) (currentDate : String)
    (summaryOutcome : Except String String) : Except ExtractErr MedRecord :=
  let result := match content with
    | some s => if s == "" then "\x7b\x7d" else s
    | none => "\x7b\x7d"
  match parseJson (cleanResponse result) with
  | none => .error .parseFailed
  | some p => extractFromParsed p currentDate summaryOutcome

/-! ### Text extraction (aiProcessor lines 232–269) -/

/-- The branch taken by `extractText`: the MIME type is compared only
against `application/pdf`; every other declared type — image or not — is
sent to OCR. -/
inductive DocRoute where
  | pdf : DocRoute
  | ocr : DocRoute
deriving DecidableEq, Repr

def routeFor (mime : String) : DocRoute :=
  if mime == "application/pdf" then .pdf else .ocr

/-- The outcome of the branch `extractText` takes: the result of the
`pdf-parse` call on the PDF branch, of the Tesseract OCR call otherwise. -/
def routedOutcome (mime : String) (pdfOutcome ocrOutcome : Except String String) :
    Except String String :=
  match routeFor mime with
  | .pdf => pdfOutcome
  | .ocr => ocrOutcome

/-- `extractText`: run the routed extraction (`pdfOutcome` / `ocrOutcome`
are the results of the `pdf-parse` and Tesseract calls), fail when it
errors or when the text is empty or all-whitespace (line 260), wrapping
every failure as the line-267 extraction error. -/
def extractText (mime : String) (pdfOutcome ocrOutcome : Except String String) :
    Except ExtractErr String :=
  match routedOutcome mime pdfOutcome ocrOutcome with
  | .error _ => .error .extractionFailed
  | .ok t => if t == "" || jsTrim t == "" then .error .extractionFailed else .ok t

/-! ### The vector store and the facade's operations (lines 26–35, 271–325) -/

/-- An entry of the in-memory vector store. -/
structure IndexedDoc where
  content : String
  embedding : List Int
deriving Repr

/-- Descending insertion by score. -/
def insertByScore (x : Int × IndexedDoc) : List (Int × IndexedDoc) → List (Int × IndexedDoc)
  | [] => [x]
  | y :: ys => if y.1 < x.1 then x :: y :: ys else y :: insertByScore x ys

def sortByScoreDesc (l : List (Int × IndexedDoc)) : List (Int × IndexedDoc) :=
  l.foldr insertByScore []

/-- `MemoryVectorStore.similaritySearch`: score every stored entry against
the query (the scoring function — cosine similarity over embeddings — is a
parameter; its choice is irrelevant to the claims below), order by
descending score, return at most `limit`. -/
def similaritySearch (score : String → IndexedDoc → Int) (store : List IndexedDoc)
    (query : String) (limit : Nat) : List IndexedDoc :=
  ((sortByScoreDesc (store.map (fun d => (score query d, d)))).map (fun x => x.2)).take limit

/-- The mutable state of the `AIProcessor` singleton relevant to search:
its `vectorStore` member, created empty by the constructor (line 31). -/
structure AIState where
  vectorStore : List IndexedDoc

def initialState : AIState := { vectorStore := [] }

/-- The public operations of the processor. `processDocument` carries the
inputs its pipeline consumes; none of them reach the vector store. -/
inductive AIOp where
  | processDocument (mime : String) (pdfOutcome ocrOutcome : Except String String)
      (content : Option String) (currentDate : String)
      (summaryOutcome : Except String String) : AIOp
  | searchSimilarDocuments (query : String) (limit : Nat) : AIOp

/-- Effect of one operation on the processor state: `processDocument`
(lines 271–310) never references `this.vectorStore`, and
`searchSimilarDocuments` (lines 313–316) only reads it. -/
def applyOp (s : AIState) : AIOp → AIState
  | .processDocument _ _ _ _ _ _ => s
  | .searchSimilarDocuments _ _ => s

/-! ### Typed views of the model's JSON output

The spec's claims speak about medication objects with string fields and
about model responses that may omit fields. These structures embed such
values into `JVal` so the claims can quantify over them. -/

/-- A medication with the four canonical string fields. -/
structure Medication where
  medicineName : String
  dosage : String
  duration : String
  tablets : String
deriving DecidableEq, Repr

def Medication.toJVal (m : Medication) : JVal :=
  .obj [ ("medicineName", .str m.medicineName), ("dosage", .str m.dosage)
       , ("duration", .str m.duration), ("tablets", .str m.tablets) ]

/-- All four fields empty — the condition under which normalization drops
the medication. -/
def Medication.allEmpty (m : Medication) : Bool :=
  m.medicineName == "" && m.dosage == "" && m.duration == "" && m.tablets == ""

/-- A medication object as the model may emit it, with any subset of the
four canonical fields present. -/
structure MedOpt where
  medicineName : Option String
  dosage : Option String
  duration : Option String
  tablets : Option String
deriving DecidableEq, Repr

/-- A field that is present iff the option is `some`. -/
def optStr (k : String) : Option String → List (String × JVal)
  | some s => [(k, .str s)]
  | none => []

def optJ (k : String) : Option JVal → List (String × JVal)
  | some v => [(k, v)]
  | none => []

def MedOpt.toJVal (m : MedOpt) : JVal :=
  .obj (optStr "medicineName" m.medicineName ++ optStr "dosage" m.dosage ++
    optStr "duration" m.duration ++ optStr "tablets" m.tablets)

/-- Default each missing subfield to the empty string. -/
def MedOpt.defaulted (m : MedOpt) : Medication :=
  ⟨m.medicineName.getD "", m.dosage.getD "", m.duration.getD "", m.tablets.getD ""⟩

/-- A parsed model response: any subset of the seven schema fields present,
the prescription value of arbitrary JSON shape. -/
structure ParsedInput where
  patientName : Option String
  date : Option String
  doctorName : Option String
  diagnosis : Option String
  prescription : Option JVal
  notes : Option String
  recordType : Option String

def ParsedInput.toJVal (inp : ParsedInput) : JVal :=
  .obj (optStr "patientName" inp.patientName ++ optStr "date" inp.date ++
    optStr "doctorName" inp.doctorName ++ optStr "diagnosis" inp.diagnosis ++
    optJ "prescription" inp.prescription ++ optStr "notes" inp.notes ++
    optStr "recordType" inp.recordType)

/-- `o || dflt` for a possibly-absent string field: the value when present
and non-empty, the default otherwise. -/
def strOr (o : Option String) (dflt : String) : String :=
  match o with
  | some s => if s == "" then dflt else s
  | none => dflt

/-- The record `formatRecord` produces when every field of the model
response is absent. -/
def defaultRecord (d : String) : MedRecord :=
  { patientName := .str "", date := .str d, doctorName := .str ""
  , diagnosis := .str "", prescription := [], notes := .str ""
  , recordType := .str "prescription", summary := none }

/-! ### Lookup lemmas for the typed views -/

theorem lookupKey_optStr_ne (k key : String) (h : k ≠ key) (o : Option String)
    (rest : List (String × JVal)) :
    lookupKey (optStr k o ++ rest) key = lookupKey rest key := by
  cases o <;> simp [optStr, lookupKey, h]

theorem lookupKey_optJ_ne (k key : String) (h : k ≠ key) (o : Option JVal)
    (rest : List (String × JVal)) :
    lookupKey (optJ k o ++ rest) key = lookupKey rest key := by
  cases o <;> simp [optJ, lookupKey, h]

theorem lookupKey_optStr_hit (k : String) (o : Option String)
    (rest : List (String × JVal)) (h : lookupKey rest k = .jsUndefined) :
    lookupKey (optStr k o ++ rest) k =
      (match o with | some s => JVal.str s | none => JVal.jsUndefined) := by
  cases o <;> simp [optStr, lookupKey, h]

theorem lookupKey_optJ_hit (k : String) (o : Option JVal)
    (rest : List (String × JVal)) (h : lookupKey rest k = .jsUndefined) :
    lookupKey (optJ k o ++ rest) k = o.getD .jsUndefined := by
  cases o <;> simp [optJ, lookupKey, h]

theorem lookupKey_optStr_ne_last (k key : String) (h : k ≠ key) (o : Option String) :
    lookupKey (optStr k o) key = .jsUndefined := by
  cases o <;> simp [optStr, lookupKey, h]

theorem lookupKey_optStr_hit_last (k : String) (o : Option String) :
    lookupKey (optStr k o) k =
      (match o with | some s => JVal.str s | none => JVal.jsUndefined) := by
  cases o <;> simp [optStr, lookupKey]

theorem jOr_optStr (o : Option String) (d : String) :
    jOr (match o with | some s => JVal.str s | none => JVal.jsUndefined) (.str d) =
      .str (strOr o d) := by
  cases o with
  | none => simp [jOr, truthy, strOr]
  | some s =>
    by_cases hs : s = "" <;> simp [jOr, truthy, strOr, hs]

theorem strOr_empty_default (o : Option String) : strOr o "" = o.getD "" := by
  cases o with
  | none => rfl
  | some s => by_cases hs : s = "" <;> simp [strOr, hs]

theorem getKeyP_patientName (inp : ParsedInput) :
    getKey inp.toJVal "patientName" =
      (match inp.patientName with | some s => JVal.str s | none => JVal.jsUndefined) := by
  simp only [ParsedInput.toJVal, getKey, List.append_assoc]
  rw [lookupKey_optStr_hit]
  rw [lookupKey_optStr_ne _ _ (by decide), lookupKey_optStr_ne _ _ (by decide),
    lookupKey_optStr_ne _ _ (by decide), lookupKey_optJ_ne _ _ (by decide),
    lookupKey_optStr_ne _ _ (by decide), lookupKey_optStr_ne_last _ _ (by decide)]

theorem getKeyP_date (inp : ParsedInput) :
    getKey inp.toJVal "date" =
      (match inp.date with | some s => JVal.str s | none => JVal.jsUndefined) := by
  simp only [ParsedInput.toJVal, getKey, List.append_assoc]
  rw [lookupKey_optStr_ne _ _ (by decide), lookupKey_optStr_hit]
  rw [lookupKey_optStr_ne _ _ (by decide), lookupKey_optStr_ne _ _ (by decide),
    lookupKey_optJ_ne _ _ (by decide), lookupKey_optStr_ne _ _ (by decide),
    lookupKey_optStr_ne_last _ _ (by decide)]

theorem getKeyP_doctorName (inp : ParsedInput) :
    getKey inp.toJVal "doctorName" =
      (match inp.doctorName with | some s => JVal.str s | none => JVal.jsUndefined) := by
  simp only [ParsedInput.toJVal, getKey, List.append_assoc]
  rw [lookupKey_optStr_ne _ _ (by decide), lookupKey_optStr_ne _ _ (by decide),
    lookupKey_optStr_hit]
  rw [lookupKey_optStr_ne _ _ (by decide), lookupKey_optJ_ne _ _ (by decide),
    lookupKey_optStr_ne _ _ (by decide), lookupKey_optStr_ne_last _ _ (by decide)]

theorem getKeyP_diagnosis (inp : ParsedInput) :
    getKey inp.toJVal "diagnosis" =
      (match inp.diagnosis with | some s => JVal.str s | none => JVal.jsUndefined) := by
  simp only [ParsedInput.toJVal, getKey, List.append_assoc]
  rw [lookupKey_optStr_ne _ _ (by decide), lookupKey_optStr_ne _ _ (by decide),
    lookupKey_optStr_ne _ _ (by decide), lookupKey_optStr_hit]
  rw [lookupKey_optJ_ne _ _ (by decide), lookupKey_optStr_ne _ _ (by decide),
    lookupKey_optStr_ne_last _ _ (by decide)]

theorem getKeyP_prescription (inp : ParsedInput) :
    getKey inp.toJVal "prescription" = inp.prescription.getD .jsUndefined := by
  simp only [ParsedInput.toJVal, getKey, List.append_assoc]
  rw [lookupKey_optStr_ne _ _ (by decide), lookupKey_optStr_ne _ _ (by decide),
    lookupKey_optStr_ne _ _ (by decide), lookupKey_optStr_ne _ _ (by decide),
    lookupKey_optJ_hit]
  rw [lookupKey_optStr_ne _ _ (by decide), lookupKey_optStr_ne_last _ _ (by decide)]

theorem getKeyP_notes (inp : ParsedInput) :
    getKey inp.toJVal "notes" =
      (match inp.notes with | some s => JVal.str s | none => JVal.jsUndefined) := by
  simp only [ParsedInput.toJVal, getKey, List.append_assoc]
  rw [lookupKey_optStr_ne _ _ (by decide), lookupKey_optStr_ne _ _ (by decide),
    lookupKey_optStr_ne _ _ (by decide), lookupKey_optStr_ne _ _ (by decide),
    lookupKey_optJ_ne _ _ (by decide), lookupKey_optStr_hit]
  rw [lookupKey_optStr_ne_last _ _ (by decide)]

theorem getKeyP_recordType (inp : ParsedInput) :
    getKey inp.toJVal "recordType" =
      (match inp.recordType with | some s => JVal.str s | none => JVal.jsUndefined) := by
  simp only [ParsedInput.toJVal, getKey, List.append_assoc]
  rw [lookupKey_optStr_ne _ _ (by decide), lookupKey_optStr_ne _ _ (by decide),
    lookupKey_optStr_ne _ _ (by decide), lookupKey_optStr_ne _ _ (by decide),
    lookupKey_optJ_ne _ _ (by decide), lookupKey_optStr_ne _ _ (by decide),
    lookupKey_optStr_hit_last]

/-- How the formatting step (lines 171–179) acts on a typed model
response: every field present and non-empty is kept, every other field gets
its code-declared default — the empty string, except `date` (the current
date) and `recordType` (`'prescription'`) — and the prescription value goes
through `normPrescription`. -/
theorem formatRecord_toJVal (inp : ParsedInput) (d : String) :
    formatRecord inp.toJVal d =
      { patientName := .str (strOr inp.patientName "")
      , date := .str (strOr inp.date d)
      , doctorName := .str (strOr inp.doctorName "")
      , diagnosis := .str (strOr inp.diagnosis "")
      , prescription := normPrescription (inp.prescription.getD .jsUndefined)
      , notes := .str (strOr inp.notes "")
      , recordType := .str (strOr inp.recordType "prescription")
      , summary := none } := by
  simp only [formatRecord, getKeyP_patientName, getKeyP_date, getKeyP_doctorName,
    getKeyP_diagnosis, getKeyP_prescription, getKeyP_notes, getKeyP_recordType, jOr_optStr]

theorem getKeyM_medicineName (m : MedOpt) :
    getKey m.toJVal "medicineName" =
      (match m.medicineName with | some s => JVal.str s | none => JVal.jsUndefined) := by
  simp only [MedOpt.toJVal, getKey, List.append_assoc]
  rw [lookupKey_optStr_hit]
  rw [lookupKey_optStr_ne _ _ (by decide), lookupKey_optStr_ne _ _ (by decide),
    lookupKey_optStr_ne_last _ _ (by decide)]

theorem getKeyM_dosage (m : MedOpt) :
    getKey m.toJVal "dosage" =
      (match m.dosage with | some s => JVal.str s | none => JVal.jsUndefined) := by
  simp only [MedOpt.toJVal, getKey, List.append_assoc]
  rw [lookupKey_optStr_ne _ _ (by decide), lookupKey_optStr_hit]
  rw [lookupKey_optStr_ne _ _ (by decide), lookupKey_optStr_ne_last _ _ (by decide)]

theorem getKeyM_duration (m : MedOpt) :
    getKey m.toJVal "duration" =
      (match m.duration with | some s => JVal.str s | none => JVal.jsUndefined) := by
  simp only [MedOpt.toJVal, getKey, List.append_assoc]
  rw [lookupKey_optStr_ne _ _ (by decide), lookupKey_optStr_ne _ _ (by decide),
    lookupKey_optStr_hit]
  rw [lookupKey_optStr_ne_last _ _ (by decide)]

theorem getKeyM_tablets (m : MedOpt) :
    getKey m.toJVal "tablets" =
      (match m.tablets with | some s => JVal.str s | none => JVal.jsUndefined) := by
  simp only [MedOpt.toJVal, getKey, List.append_assoc]
  rw [lookupKey_optStr_ne _ _ (by decide), lookupKey_optStr_ne _ _ (by decide),
    lookupKey_optStr_ne _ _ (by decide), lookupKey_optStr_hit_last]

/-- The map step reduces a partially-present medication object to exactly
the four canonical fields with missing subfields defaulted. -/
theorem normMed_medOpt (m : MedOpt) : normMed m.toJVal = m.defaulted.toJVal := by
  simp only [normMed, Medication.toJVal, MedOpt.defaulted, getKeyM_medicineName,
    getKeyM_dosage, getKeyM_duration, getKeyM_tablets, jOr_optStr, strOr_empty_default]

/-- The retention filter keeps a medication exactly when not all four
fields are empty. -/
theorem keepMed_medication (m : Medication) : keepMed m.toJVal = !m.allEmpty := by
  simp [keepMed, Medication.toJVal, getKey, lookupKey, truthy, Medication.allEmpty, bne]

theorem isObjLike_medication (m : Medication) : isObjLike m.toJVal = true := rfl

theorem isObjLike_medOpt (m : MedOpt) : isObjLike m.toJVal = true := rfl

/-- Normalization on a list of typed medication objects: default the
missing subfields, then drop exactly the all-empty medications. -/
theorem normPrescription_medOpts (ms : List MedOpt) :
    normPrescription (.arr (ms.map MedOpt.toJVal)) =
      ((ms.map MedOpt.defaulted).filter (fun m => !m.allEmpty)).map Medication.toJVal := by
  induction ms with
  | nil => rfl
  | cons m rest ih =>
    simp only [normPrescription] at ih
    cases hEmp : m.defaulted.allEmpty <;>
      simp [normPrescription, List.filter_cons, isObjLike_medOpt, normMed_medOpt,
        keepMed_medication, hEmp, ih]

/-- A value that is not array-shaped normalizes to the empty list. -/
theorem normPrescription_nonarr (p : JVal) (h : p.isArr = false) :
    normPrescription p = [] := by
  cases p <;> simp_all [JVal.isArr, normPrescription]

/-! ### Further helper lemmas -/

theorem lookupKey_cons_eq (k : String) (v : JVal) (rest : List (String × JVal)) :
    lookupKey ((k, v) :: rest) k = v := by
  simp [lookupKey]

theorem lookupKey_cons_ne (k key : String) (h : k ≠ key) (v : JVal)
    (rest : List (String × JVal)) :
    lookupKey ((k, v) :: rest) key = lookupKey rest key := by
  simp [lookupKey, h]

theorem truthy_str_empty : truthy (.str "") = false := rfl

theorem jOr_jOr_empty (v : JVal) : jOr (jOr v (.str "")) (.str "") = jOr v (.str "") := by
  cases h : truthy v with
  | true => simp [jOr, h]
  | false => simp [jOr, h, truthy_str_empty]

theorem truthy_jOr_empty (v : JVal) : truthy (jOr v (.str "")) = truthy v := by
  cases h : truthy v with
  | true => simp [jOr, h]
  | false => simp [jOr, h, truthy_str_empty]

theorem getKey_normMed_mn (m : JVal) :
    getKey (normMed m) "medicineName" = jOr (getKey m "medicineName") (.str "") := by
  simp only [normMed, getKey]
  rw [lookupKey_cons_eq]

theorem getKey_normMed_dos (m : JVal) :
    getKey (normMed m) "dosage" = jOr (getKey m "dosage") (.str "") := by
  simp only [normMed, getKey]
  rw [lookupKey_cons_ne _ _ (by decide), lookupKey_cons_eq]

theorem getKey_normMed_dur (m : JVal) :
    getKey (normMed m) "duration" = jOr (getKey m "duration") (.str "") := by
  simp only [normMed, getKey]
  rw [lookupKey_cons_ne _ _ (by decide), lookupKey_cons_ne _ _ (by decide),
    lookupKey_cons_eq]

theorem getKey_normMed_tab (m : JVal) :
    getKey (normMed m) "tablets" = jOr (getKey m "tablets") (.str "") := by
  simp only [normMed, getKey]
  rw [lookupKey_cons_ne _ _ (by decide), lookupKey_cons_ne _ _ (by decide),
    lookupKey_cons_ne _ _ (by decide), lookupKey_cons_eq]

/-- The map step of the normalization is idempotent on every value. -/
theorem normMed_idem (m : JVal) : normMed (normMed m) = normMed m := by
  conv_lhs => rw [normMed]
  rw [getKey_normMed_mn, getKey_normMed_dos, getKey_normMed_dur, getKey_normMed_tab,
    jOr_jOr_empty, jOr_jOr_empty, jOr_jOr_empty, jOr_jOr_empty]
  rfl

theorem isObjLike_normMed (m : JVal) : isObjLike (normMed m) = true := rfl

theorem map_self {α : Type} (f : α → α) (l : List α) (h : ∀ x ∈ l, f x = x) :
    l.map f = l := by
  induction l with
  | nil => rfl
  | cons a t ih =>
    simp only [List.map_cons, h a (List.mem_cons_self a t),
      ih (fun x hx => h x (List.mem_cons_of_mem a hx))]

/-- A list every element of which is object-like, a fixed point of the map
step and retained by the filter, is a fixed point of normalization. -/
theorem norm_list_fixed (ys : List JVal)
    (h : ∀ y ∈ ys, isObjLike y = true ∧ normMed y = y ∧ keepMed y = true) :
    normPrescription (.arr ys) = ys := by
  simp only [normPrescription]
  rw [List.filter_eq_self.mpr (fun y hy => (h y hy).1),
    map_self normMed ys (fun y hy => (h y hy).2.1),
    List.filter_eq_self.mpr (fun y hy => (h y hy).2.2)]

/-- Unfolding of `extractFromParsed` on an object value. -/
theorem extractFromParsed_obj (fs : List (String × JVal)) (d : String)
    (sO : Except String String) :
    extractFromParsed (.obj fs) d sO =
      if needsSummary (formatRecord (.obj fs) d) then
        match sO with
        | .ok s => .ok { formatRecord (.obj fs) d with summary := some s }
        | .error _ => .error .parseFailed
      else .ok (formatRecord (.obj fs) d) := rfl

/-- A successful extraction returns the formatted record, up to the summary
field. -/
theorem extractFromParsed_ok (p : JVal) (d : String) (sO : Except String String)
    (r : MedRecord) (h : extractFromParsed p d sO = .ok r) :
    r = { formatRecord p d with summary := r.summary } := by
  cases p <;> simp only [extractFromParsed] at h
  case jsUndefined => exact absurd h (by simp)
  case null => exact absurd h (by simp)
  case bool b => exact absurd h (by simp)
  case num n => exact absurd h (by simp)
  case str s => exact absurd h (by simp)
  case arr xs =>
    split at h
    · cases sO with
      | ok s => injection h with h2; rw [← h2]
      | error e => exact absurd h (by simp)
    · injection h with h2; rw [← h2]
  case obj fs =>
    split at h
    · cases sO with
      | ok s => injection h with h2; rw [← h2]
      | error e => exact absurd h (by simp)
    · injection h with h2; rw [← h2]

/-- Any error from the summary call surfaces as the parse-failure error:
the catch at line 188 wraps the whole block. -/
theorem summary_error_fatal (inp : ParsedInput) (d e : String)
    (h : needsSummary (formatRecord inp.toJVal d) = true) :
    extractFromParsed inp.toJVal d (.error e) = .error .parseFailed := by
  obtain ⟨fs, hfs⟩ : ∃ fs, inp.toJVal = JVal.obj fs := ⟨_, rfl⟩
  rw [hfs] at h ⊢
  rw [extractFromParsed_obj, if_pos h]

theorem foldl_applyOp (ops : List AIOp) (s : AIState) : ops.foldl applyOp s = s := by
  induction ops generalizing s with
  | nil => rfl
  | cons op t ih => cases op <;> simp [List.foldl_cons, applyOp, ih]

/-! ### Concrete inputs used by witnesses and counterexamples -/

/-- A model response with every schema field absent. -/
def emptyInput : ParsedInput := ⟨none, none, none, none, none, none, none⟩

/-- The spec's example response carrying only a patient name. -/
def janeInput : ParsedInput := ⟨some "Jane Doe", none, none, none, none, none, none⟩

/-- The record the pipeline produces for `janeInput` on 2026-10-11 with a
successful summary call returning `"S"`. -/
def janeRecord : MedRecord :=
  { patientName := .str "Jane Doe", date := .str "2026-10-11", doctorName := .str ""
  , diagnosis := .str "", prescription := [], notes := .str ""
  , recordType := .str "prescription", summary := some "S" }

/-- A medication object with only `medicineName` present. -/
def aspirinOnly : MedOpt := ⟨some "Aspirin", none, none, none⟩

/-- A medication object whose present fields are all empty. -/
def blankMed : MedOpt := ⟨some "", some "", none, none⟩

/-! ### The claims -/

/-- Claim C1: for every parsed model response, a successful structured
extraction returns a record in which all seven top-level keys are present
(the `MedRecord` shape is total), and every key the parsed JSON omits
carries its declared default — the empty string for `patientName`,
`doctorName`, `diagnosis` and `notes`, the current date for `date`, the
empty sequence for `prescription`, and `'prescription'` for `recordType`. -/
theorem C1_all_keys_defaulted (inp : ParsedInput) (d : String)
    (sO : Except String String) (r : MedRecord)
    (h : extractFromParsed inp.toJVal d sO = .ok r) :
    (inp.patientName = none → r.patientName = .str "") ∧
    (inp.date = none → r.date = .str d) ∧
    (inp.doctorName = none → r.doctorName = .str "") ∧
    (inp.diagnosis = none → r.diagnosis = .str "") ∧
    (inp.prescription = none → r.prescription = []) ∧
    (inp.notes = none → r.notes = .str "") ∧
    (inp.recordType = none → r.recordType = .str "prescription") := by
  have hr := extractFromParsed_ok _ _ _ _ h
  rw [formatRecord_toJVal] at hr
  refine ⟨?_, ?_, ?_, ?_, ?_, ?_, ?_⟩ <;> intro hn <;> rw [hr] <;>
    simp [strOr, hn, normPrescription]

/-- Witness for C1 at the spec's example: a response carrying only
`patientName` still yields every other key defaulted. -/
theorem C1_all_keys_defaulted_witness :
    (janeInput.patientName = none → janeRecord.patientName = .str "") ∧
    (janeInput.date = none → janeRecord.date = .str "2026-10-11") ∧
    (janeInput.doctorName = none → janeRecord.doctorName = .str "") ∧
    (janeInput.diagnosis = none → janeRecord.diagnosis = .str "") ∧
    (janeInput.prescription = none → janeRecord.prescription = []) ∧
    (janeInput.notes = none → janeRecord.notes = .str "") ∧
    (janeInput.recordType = none → janeRecord.recordType = .str "prescription") :=
  C1_all_keys_defaulted janeInput "2026-10-11" (Except.ok "S") janeRecord rfl

/-- Claim C2: prescription normalization coerces every non-array to the
empty sequence; on an array of medication objects it keeps exactly the four
canonical fields with missing subfields defaulted to the empty string,
drops every medication whose four fields are all empty, and retains every
medication with at least one non-empty field. -/
theorem C2_prescription_normalization (p : JVal) :
    (p.isArr = false → normPrescription p = []) ∧
    (∀ ms : List MedOpt,
      normPrescription (.arr (ms.map MedOpt.toJVal)) =
        ((ms.map MedOpt.defaulted).filter (fun m => !m.allEmpty)).map Medication.toJVal) :=
  ⟨normPrescription_nonarr p, normPrescription_medOpts⟩

/-- Witness for C2: a non-array prescription becomes empty, and of a
medication with only `medicineName: "Aspirin"` and an all-empty medication,
exactly the former is retained. -/
theorem C2_prescription_normalization_witness :
    normPrescription (.str "not an array") = [] ∧
    normPrescription (.arr ([aspirinOnly, blankMed].map MedOpt.toJVal)) =
      [Medication.toJVal ⟨"Aspirin", "", "", ""⟩] := by
  refine ⟨(C2_prescription_normalization (.str "not an array")).1 rfl, ?_⟩
  exact ((C2_prescription_normalization (.str "not an array")).2 [aspirinOnly, blankMed]).trans rfl

/-- Claim C3: the summary generator is invoked, and its result attached as
`summary`, exactly when the normalized record has a non-empty
`patientName`, a non-empty `diagnosis`, or a non-empty prescription list;
when it has none of these, the result does not depend on the summary
outcome at all (no call is made) and `summary` stays unset. -/
theorem C3_summary_condition (inp : ParsedInput) (d s : String)
    (sO : Except String String) :
    (needsSummary (formatRecord inp.toJVal d) = true ↔
      ((formatRecord inp.toJVal d).patientName ≠ .str "" ∨
        (formatRecord inp.toJVal d).diagnosis ≠ .str "" ∨
        (formatRecord inp.toJVal d).prescription ≠ [])) ∧
    (needsSummary (formatRecord inp.toJVal d) = true →
      extractFromParsed inp.toJVal d (.ok s) =
        .ok { formatRecord inp.toJVal d with summary := some s }) ∧
    (needsSummary (formatRecord inp.toJVal d) = false →
      extractFromParsed inp.toJVal d sO = .ok (formatRecord inp.toJVal d) ∧
      (formatRecord inp.toJVal d).summary = none) := by
  obtain ⟨fs, hfs⟩ : ∃ fs, inp.toJVal = JVal.obj fs := ⟨_, rfl⟩
  refine ⟨?_, ?_, ?_⟩
  · rw [formatRecord_toJVal]
    simp only [needsSummary, truthy]
    simp [or_assoc, List.length_pos]
  · intro hn
    rw [hfs] at hn ⊢
    rw [extractFromParsed_obj, if_pos hn]
  · intro hn
    rw [hfs] at hn ⊢
    rw [extractFromParsed_obj, if_neg (by simp [hn])]
    exact ⟨rfl, rfl⟩

/-- Witness for C3: an entirely empty extraction makes no summary call —
the result ignores a failing summary outcome — and `summary` stays unset. -/
theorem C3_summary_condition_witness :
    extractFromParsed emptyInput.toJVal "2026-10-11" (Except.error "provider down") =
      .ok (formatRecord emptyInput.toJVal "2026-10-11") ∧
    (formatRecord emptyInput.toJVal "2026-10-11").summary = none :=
  (C3_summary_condition emptyInput "2026-10-11" "unused" (Except.error "provider down")).2.2 rfl

/-- Counterexample to claim C4: a declared MIME type that is neither
`application/pdf` nor an image type is routed to OCR and the extraction
proceeds — it can even succeed — instead of failing with
`UnsupportedFormatError`. -/
theorem C4_counterexample :
    routeFor "text/plain" = DocRoute.ocr ∧
    extractText "text/plain" (Except.error "not a pdf") (Except.ok "plain text") =
      Except.ok "plain text" :=
  ⟨rfl, rfl⟩

/-- Claim C4 as amended: the text extractor performs no MIME validation —
it compares the declared type only against `application/pdf`, sends every
other type to OCR, and never fails with `UnsupportedFormatError` (MIME
restriction is enforced solely by the upload collaborator's file filter). -/
theorem C4_amended_no_mime_validation (mime : String)
    (pdfOutcome ocrOutcome : Except String String) :
    (mime ≠ "application/pdf" → routeFor mime = .ocr) ∧
    extractText mime pdfOutcome ocrOutcome ≠ .error .unsupportedFormat := by
  constructor
  · intro h
    simp [routeFor, h]
  · cases hr : routedOutcome mime pdfOutcome ocrOutcome with
    | error e => simp [extractText, hr]
    | ok t =>
      by_cases hcond : (t == "" || jsTrim t == "") = true <;>
        simp [extractText, hr, hcond]

/-- Witness for the amended C4. -/
theorem C4_amended_no_mime_validation_witness :
    routeFor "text/plain" = DocRoute.ocr ∧
    extractText "text/plain" (Except.ok "x") (Except.error "ocr fail") ≠
      Except.error ExtractErr.unsupportedFormat :=
  ⟨(C4_amended_no_mime_validation "text/plain" (Except.ok "x") (Except.error "ocr fail")).1
      (by decide),
    (C4_amended_no_mime_validation "text/plain" (Except.ok "x") (Except.error "ocr fail")).2⟩

/-- Counterexample to claim C5: when the model output omits `date`, the
returned record's `date` field is the current date, not the empty string. -/
theorem C5_counterexample :
    (formatRecord emptyInput.toJVal "2026-10-11").date = .str "2026-10-11" ∧
    (formatRecord emptyInput.toJVal "2026-10-11").date ≠ .str "" := by
  refine ⟨rfl, fun hbad => absurd (JVal.str.inj hbad) (by decide)⟩

/-- Claim C5 as amended: every top-level field absent from the parsed model
output defaults to the empty string (empty sequence for `prescription`),
except `date`, which defaults to the current date, and `recordType`, which
defaults to `'prescription'`. -/
theorem C5_amended_defaults (inp : ParsedInput) (d : String) :
    (inp.patientName = none → (formatRecord inp.toJVal d).patientName = .str "") ∧
    (inp.doctorName = none → (formatRecord inp.toJVal d).doctorName = .str "") ∧
    (inp.diagnosis = none → (formatRecord inp.toJVal d).diagnosis = .str "") ∧
    (inp.notes = none → (formatRecord inp.toJVal d).notes = .str "") ∧
    (inp.prescription = none → (formatRecord inp.toJVal d).prescription = []) ∧
    (inp.date = none → (formatRecord inp.toJVal d).date = .str d) ∧
    (inp.recordType = none → (formatRecord inp.toJVal d).recordType = .str "prescription") := by
  rw [formatRecord_toJVal]
  refine ⟨?_, ?_, ?_, ?_, ?_, ?_, ?_⟩ <;> intro hn <;>
    simp [strOr, hn, normPrescription]

/-- Witness for the amended C5 at the all-absent response. -/
theorem C5_amended_defaults_witness :
    (formatRecord emptyInput.toJVal "2026-10-11").patientName = .str "" ∧
    (formatRecord emptyInput.toJVal "2026-10-11").prescription = [] ∧
    (formatRecord emptyInput.toJVal "2026-10-11").date = .str "2026-10-11" ∧
    (formatRecord emptyInput.toJVal "2026-10-11").recordType = .str "prescription" := by
  have h := C5_amended_defaults emptyInput "2026-10-11"
  exact ⟨h.1 rfl, h.2.2.2.2.1 rfl, h.2.2.2.2.2.1 rfl, h.2.2.2.2.2.2 rfl⟩

/-- Claim C6: medication normalization is idempotent — renormalizing an
already-normalized prescription sequence yields the same sequence, for the
normalization of every JSON value. -/
theorem C6_normalization_idempotent (p : JVal) :
    normPrescription (.arr (normPrescription p)) = normPrescription p := by
  cases p with
  | arr xs =>
    apply norm_list_fixed
    intro y hy
    simp only [normPrescription, List.mem_filter, List.mem_map] at hy
    obtain ⟨⟨m, ⟨hm, hobj⟩, rfl⟩, hkeep⟩ := hy
    exact ⟨isObjLike_normMed m, normMed_idem m, hkeep⟩
  | jsUndefined => rfl
  | null => rfl
  | bool b => rfl
  | num n => rfl
  | str s => rfl
  | obj fields => rfl

/-- Claim C7: text extraction fails with the extraction error whenever the
underlying OCR or PDF parse call errors, and whenever the extracted text is
empty or all-whitespace; a successful extraction never returns an empty or
whitespace-only string. -/
theorem C7_extract_never_blank (mime : String)
    (pdfOutcome ocrOutcome : Except String String) :
    (∀ e, routedOutcome mime pdfOutcome ocrOutcome = .error e →
      extractText mime pdfOutcome ocrOutcome = .error .extractionFailed) ∧
    (∀ t, routedOutcome mime pdfOutcome ocrOutcome = .ok t → jsTrim t = "" →
      extractText mime pdfOutcome ocrOutcome = .error .extractionFailed) ∧
    (∀ t, extractText mime pdfOutcome ocrOutcome = .ok t → t ≠ "" ∧ jsTrim t ≠ "") := by
  refine ⟨?_, ?_, ?_⟩
  · intro e he
    simp [extractText, he]
  · intro t ht htrim
    simp [extractText, ht, htrim]
  · intro t hok
    cases hr : routedOutcome mime pdfOutcome ocrOutcome with
    | error e => simp [extractText, hr] at hok
    | ok t2 =>
      simp only [extractText, hr] at hok
      by_cases hcond : (t2 == "" || jsTrim t2 == "") = true
      · rw [if_pos hcond] at hok
        exact absurd hok (by simp)
      · rw [if_neg hcond] at hok
        injection hok with h2
        subst h2
        simp only [Bool.or_eq_true, beq_iff_eq] at hcond
        push_neg at hcond
        exact hcond

/-- Witness for C7: a failing PDF parse and a whitespace-only OCR result
both surface as extraction errors. -/
theorem C7_extract_never_blank_witness :
    extractText "application/pdf" (Except.error "io failure") (Except.ok "x") =
      Except.error ExtractErr.extractionFailed ∧
    extractText "image/png" (Except.error "x") (Except.ok "   ") =
      Except.error ExtractErr.extractionFailed :=
  ⟨(C7_extract_never_blank "application/pdf" (Except.error "io failure") (Except.ok "x")).1
      "io failure" rfl,
    (C7_extract_never_blank "image/png" (Except.error "x") (Except.ok "   ")).2.1
      "   " rfl rfl⟩

/-- Counterexample to claim C8: when the summary call fails on a record
with meaningful data, the whole extraction aborts — with the parse-failure
error, not a record carrying an empty summary. -/
theorem C8_counterexample :
    extractStructuredData (some "\x7b\x22patientName\x22:\x22Jane Doe\x22\x7d") "2026-10-11"
      (Except.error "summary provider down") = Except.error ExtractErr.parseFailed := rfl

/-- Claim C8 as amended: a summary failure is fatal at the structured
extractor boundary — whenever the summary guard holds and the summary call
errors, `extractStructuredData` rethrows (as the parse-failure error, since
the catch at line 188 wraps the whole block) instead of completing with an
empty summary. -/
theorem C8_amended_summary_failure_fatal (inp : ParsedInput) (d e : String)
    (h : needsSummary (formatRecord inp.toJVal d) = true) :
    extractFromParsed inp.toJVal d (Except.error e) = Except.error ExtractErr.parseFailed :=
  summary_error_fatal inp d e h

/-- Witness for the amended C8. -/
theorem C8_amended_summary_failure_fatal_witness :
    needsSummary (formatRecord janeInput.toJVal "2026-10-11") = true ∧
    extractFromParsed janeInput.toJVal "2026-10-11" (Except.error "down") =
      Except.error ExtractErr.parseFailed :=
  ⟨rfl, C8_amended_summary_failure_fatal janeInput "2026-10-11" "down" rfl⟩

/-- Claim C9: no operation of the processor ever adds an entry to its
in-memory vector store, so after any sequence of `processDocument` and
`searchSimilarDocuments` calls within one process the store is still empty
and every similarity search returns the empty sequence, for every query,
limit and scoring function. -/
theorem C9_search_always_empty (ops : List AIOp) (score : String → IndexedDoc → Int)
    (q : String) (limit : Nat) :
    (ops.foldl applyOp initialState).vectorStore = [] ∧
    similaritySearch score (ops.foldl applyOp initialState).vectorStore q limit = [] := by
  rw [foldl_applyOp]
  exact ⟨rfl, by simp [similaritySearch, sortByScoreDesc, initialState]⟩

/-- Counterexample to claim C10's "only" clause: a response that is valid
JSON still surfaces the parse-failure error when the summary call fails. -/
theorem C10_counterexample :
    (parseJson (cleanResponse "\x7b\x22diagnosis\x22:\x22flu\x22\x7d")).isSome = true ∧
    extractStructuredData (some "\x7b\x22diagnosis\x22:\x22flu\x22\x7d") "2026-10-11"
      (Except.error "summary provider down") = Except.error ExtractErr.parseFailed :=
  ⟨rfl, rfl⟩

/-- Claim C10 as amended: when the completion returns no content,
`extractStructuredData` substitutes `'{}'`, which parses successfully, and
returns the fully-defaulted record (recordType `'prescription'`, empty
prescription, no summary call) instead of failing; the parse-failure error
is raised when the substituted-or-cleaned response is not valid JSON — and
also when the summary call fails, since the catch wraps the whole block. -/
theorem C10_amended_empty_content (d : String) (sO : Except String String) :
    extractStructuredData none d sO = Except.ok (defaultRecord d) ∧
    (∀ c : String, c ≠ "" → parseJson (cleanResponse c) = none →
      extractStructuredData (some c) d sO = Except.error ExtractErr.parseFailed) ∧
    (∀ inp : ParsedInput, ∀ e : String,
      needsSummary (formatRecord inp.toJVal d) = true →
        extractFromParsed inp.toJVal d (Except.error e) =
          Except.error ExtractErr.parseFailed) := by
  refine ⟨rfl, ?_, ?_⟩
  · intro c hc hparse
    have hbeq : (c == "") = false := beq_eq_false_iff_ne.mpr hc
    simp [extractStructuredData, hbeq, hparse]
  · intro inp e h
    exact summary_error_fatal inp d e h

/-- Witness for the amended C10. -/
theorem C10_amended_empty_content_witness :
    extractStructuredData none "2026-10-11" (Except.ok "S") =
      Except.ok (defaultRecord "2026-10-11") ∧
    extractStructuredData (some "not json") "2026-10-11" (Except.ok "S") =
      Except.error ExtractErr.parseFailed :=
  ⟨(C10_amended_empty_content "2026-10-11" (Except.ok "S")).1,
    (C10_amended_empty_content "2026-10-11" (Except.ok "S")).2.1 "not json" (by decide) rfl⟩

end MedOrganiser
